import Mathlib

/-!
Shallow embedding of the animated-landscape component
(`components/PoeticLandscape.tsx`, here `src/unnamed/part_000`) and of its
data model (`src/types.ts`).

Numbers are modelled as exact rationals (`ℚ`); the JS decimal constants are
written as the fractions they denote (0.02 = 1/50, 0.98 = 49/50, 1.5 = 3/2,
0.01 = 1/100, 0.6 = 3/5, 0.05 = 1/20, 0.5 = 1/2, 0.2 = 1/5).
`Math.sin` / `Math.cos` are abstracted as function parameters `sin cos : ℚ → ℚ`
(the claims under study never depend on their values), and every call to
`Math.random` is threaded in explicitly as a parameter, so that all
definitions are pure functions of their inputs exactly as the source code is
a deterministic function of the event stream and the random stream.
-/

/-- `Particle` from `src/types.ts`. -/
structure Particle where
  x : ℚ
  y : ℚ
  vx : ℚ
  vy : ℚ
  size : ℚ
  life : ℚ
  maxLife : ℚ
  color : String
deriving DecidableEq, Repr

/-- `Ripple` from `src/types.ts`. -/
structure Ripple where
  x : ℚ
  y : ℚ
  radius : ℚ
  maxRadius : ℚ
  opacity : ℚ
  color : String
deriving DecidableEq, Repr

/-- A stroked circle emitted by the ripple draw code
(`ctx.arc` + `ctx.stroke` with a line width and a global alpha). -/
structure RingStroke where
  x : ℚ
  y : ℚ
  radius : ℚ
  lineWidth : ℚ
  alpha : ℚ
  color : String
deriving DecidableEq, Repr

/-- A filled circle emitted by the brush-trail draw code
(`ctx.arc` + `ctx.fill` with a global alpha). -/
structure Dot where
  x : ℚ
  y : ℚ
  size : ℚ
  alpha : ℚ
  color : String
deriving DecidableEq, Repr

/-! ### Brush trail (ink) pool, lines 316-330 of the component

```
p.life -= 0.02;
p.size *= 0.98;
if (p.life <= 0) { splice } else { arc(p.x, p.y, p.size); alpha = p.life*0.6; fill }
```
Note the loop touches only `life` and `size`: `p.x`, `p.y`, `p.vx`, `p.vy`
are not read or written here. -/

/-- The per-particle mutation of one brush-trail frame. -/
def inkUpdateParticle (p : Particle) : Particle :=
  { p with life := p.life - 1/50, size := p.size * (49/50) }

/-- One brush-trail frame for a single particle: mutate, then either remove
(`life <= 0`) or draw a dot with alpha `life * 0.6`. -/
def inkFrame (p : Particle) : Option Particle × List Dot :=
  let q := inkUpdateParticle p
  if q.life ≤ 0 then (none, [])
  else (some q, [{ x := q.x, y := q.y, size := q.size, alpha := q.life * (3/5), color := q.color }])

/-- One frame over the whole brush-trail pool.  The source iterates indices
from the end and `splice`s, which removes each dead particle independently
and keeps the survivors in order: survivors are the `filterMap` of the list.
The draws are emitted in the source's back-to-front iteration order. -/
def inkPoolFrame (ps : List Particle) : List Particle × List Dot :=
  (ps.filterMap (fun p => (inkFrame p).1),
   ps.reverse.flatMap (fun p => (inkFrame p).2))

/-- The pool after one frame (state part only). -/
def inkPoolStep (ps : List Particle) : List Particle :=
  (inkPoolFrame ps).1

/-! ### Ripple pool, lines 288-313 of the component

```
r.radius += 1.5;
r.opacity -= 0.01;
if (r.opacity <= 0) { splice }
else {
  arc(r.x, r.y, r.radius); lineWidth = 2 + (1 - r.opacity) * 10; alpha = r.opacity; stroke;
  if (r.radius > 20) { arc(r.x, r.y, r.radius - 15); lineWidth = 1; alpha = r.opacity * 0.5; stroke }
}
```
-/

/-- The per-ripple mutation of one frame. -/
def rippleUpdate (r : Ripple) : Ripple :=
  { r with radius := r.radius + 3/2, opacity := r.opacity - 1/100 }

/-- One ripple frame for a single ripple: mutate, then either remove
(`opacity <= 0`) or draw the outer ring and, when `radius > 20`, the
secondary inner ring at `radius - 15` with half the alpha. -/
def rippleFrame (r : Ripple) : Option Ripple × List RingStroke :=
  let q := rippleUpdate r
  if q.opacity ≤ 0 then (none, [])
  else
    (some q,
      { x := q.x, y := q.y, radius := q.radius,
        lineWidth := 2 + (1 - q.opacity) * 10, alpha := q.opacity, color := q.color } ::
      (if q.radius > 20 then
        [{ x := q.x, y := q.y, radius := q.radius - 15,
           lineWidth := 1, alpha := q.opacity * (1/2), color := q.color }]
       else []))

/-- One frame over the whole ripple pool (same back-to-front `splice` loop
as the brush trail). -/
def ripplePoolFrame (rs : List Ripple) : List Ripple × List RingStroke :=
  (rs.filterMap (fun r => (rippleFrame r).1),
   rs.reverse.flatMap (fun r => (rippleFrame r).2))

/-- The ripple pool after one frame (state part only). -/
def ripplePoolStep (rs : List Ripple) : List Ripple :=
  (ripplePoolFrame rs).1

/-! ### Event handlers, lines 130-161 -/

/-- Mouse state: smoothed position and raw target, both relative to the
viewport center (`mouseRef`). -/
structure MouseState where
  x : ℚ
  y : ℚ
  targetX : ℚ
  targetY : ℚ
deriving DecidableEq, Repr

/-- The whole mutable state of the component: frame counter, mouse state and
the three pools (`frameCountRef`, `mouseRef`, `particlesRef`, `ripplesRef`,
`goldDustRef`). -/
structure AppState where
  frameCount : ℕ
  mouse : MouseState
  particles : List Particle
  ripples : List Ripple
  goldDust : List Particle
deriving DecidableEq, Repr

/-- The ink particle pushed by `handleMouseMove`; `r1 r2 r3 r4` are the four
`Math.random()` draws in source order. -/
def inkSpawn (clientX clientY r1 r2 r3 r4 : ℚ) : Particle :=
  { x := clientX, y := clientY,
    vx := (r1 - 1/2) * (1/2), vy := r2 * (1/2),
    size := r3 * 4 + 2,
    life := 1, maxLife := 1,
    color := if r4 > 1/2 then "#111" else "#223" }

/-- `handleMouseMove`: always retargets the parallax mouse state; pushes one
ink particle only when the current frame counter is even
(`frameCountRef.current % 2 === 0`). `iw`/`ih` are
`window.innerWidth`/`innerHeight`. -/
def handleMouseMove (s : AppState) (clientX clientY iw ih r1 r2 r3 r4 : ℚ) : AppState :=
  let m := { s.mouse with targetX := clientX - iw / 2, targetY := clientY - ih / 2 }
  if s.frameCount % 2 = 0 then
    { s with mouse := m, particles := s.particles ++ [inkSpawn clientX clientY r1 r2 r3 r4] }
  else
    { s with mouse := m }

/-- The ripple pushed by `handleClick`; `r1 r2` are the two `Math.random()`
draws in source order. `stoneGreen`/`stoneBlue` are the two palette accents. -/
def rippleSpawn (clientX clientY r1 r2 : ℚ) : Ripple :=
  { x := clientX, y := clientY,
    radius := 0,
    maxRadius := 100 + r1 * 50,
    opacity := 3/5,
    color := if r2 > 1/2 then "#4A8F78" else "#2B5F75" }

/-- `handleClick`: push one ripple. -/
def handleClick (s : AppState) (clientX clientY r1 r2 : ℚ) : AppState :=
  { s with ripples := s.ripples ++ [rippleSpawn clientX clientY r1 r2] }

/-! ### Gold dust (ambient) pool

Initialization, lines 97-112: a loop pushing exactly 40 particles, each built
from five `Math.random()` draws.  Per-frame update, lines 268-285:

```
p.x += Math.sin(t + p.y * 0.01) * 0.5;
p.y += Math.cos(t + p.x * 0.01) * 0.2;   // reads the already-updated p.x
if (p.x > width) p.x = 0;
if (p.x < 0) p.x = width;
if (p.y > height) p.y = 0;
if (p.y < 0) p.y = height;
```
executed with `forEach` (no particle is ever added or removed). -/

/-- The `i`-th gold-dust particle of the init loop; `rnd` is the stream of
`Math.random()` draws (five consumed per particle, in source order). -/
def goldDustInitParticle (rnd : ℕ → ℚ) (iw ih : ℚ) (i : ℕ) : Particle :=
  { x := rnd (5 * i) * iw,
    y := rnd (5 * i + 1) * ih,
    vx := (rnd (5 * i + 2) - 1/2) * (1/5),
    vy := (rnd (5 * i + 3) - 1/2) * (1/5),
    size := rnd (5 * i + 4) * 2 + 1/2,
    life := 1, maxLife := 1,
    color := "#D4AF37" }

/-- The gold-dust pool built by the init effect: the loop `for i in 0..39`. -/
def goldDustInit (rnd : ℕ → ℚ) (iw ih : ℚ) : List Particle :=
  (List.range 40).map (goldDustInitParticle rnd iw ih)

/-- The x-drift of one gold-dust frame:
`p.x + Math.sin(t + p.y * 0.01) * 0.5` (line 270). -/
def driftX (sin : ℚ → ℚ) (t : ℚ) (p : Particle) : ℚ :=
  p.x + sin (t + p.y * (1/100)) * (1/2)

/-- The y-drift of one gold-dust frame:
`p.y + Math.cos(t + p.x * 0.01) * 0.2` (line 271), where `p.x` is the
already-updated x. -/
def driftY (sin cos : ℚ → ℚ) (t : ℚ) (p : Particle) : ℚ :=
  p.y + cos (t + driftX sin t p * (1/100)) * (1/5)

/-- One gold-dust frame for a single particle: oscillatory drift (the y step
reads the already-updated x), then the four sequential wraparound checks. -/
def goldDustUpdateParticle (sin cos : ℚ → ℚ) (t w h : ℚ) (p : Particle) : Particle :=
  let x1 := driftX sin t p
  let y1 := driftY sin cos t p
  let x2 := if x1 > w then 0 else x1
  let x3 := if x2 < 0 then w else x2
  let y2 := if y1 > h then 0 else y1
  let y3 := if y2 < 0 then h else y2
  { p with x := x3, y := y3 }

/-- One frame over the gold-dust pool: `forEach`, i.e. a map. -/
def goldDustPoolStep (sin cos : ℚ → ℚ) (t w h : ℚ) (ps : List Particle) : List Particle :=
  ps.map (goldDustUpdateParticle sin cos t w h)

/-! ### Mountain layers, `drawMountain`, lines 182-241

The wave height `y1 + y2 + y3` is computed twice with identical formulas: once
inside the fill-path loop (lines 204-214) and once inside the stroke-path loop
(lines 231-237).  Both loops run `for (let x = 0; x <= width; x += 5)`.  The
two computations are embedded as two separate definitions, mirroring the
duplication in the source. -/

/-- `MountainLayerConfig` from `src/types.ts` (numeric fields only are used by
the wave math; the color fields are kept for completeness). -/
structure MountainLayerConfig where
  color : String
  strokeColor : String
  fillGradientStart : String
  fillGradientEnd : String
  yOffset : ℚ
  amplitude : ℚ
  frequency : ℚ
  speed : ℚ
  opacity : ℚ
  noise : ℚ
deriving DecidableEq, Repr

/-- The `LAYERS` configuration table (back to front). -/
def LAYERS : List MountainLayerConfig :=
  [{ color := "#8FAABC", strokeColor := "#6B8C9E",
     fillGradientStart := "#8FAABC", fillGradientEnd := "#F4F1E8",
     yOffset := 7/20, amplitude := 80, frequency := 1/500, speed := 1/50,
     opacity := 3/5, noise := 10 },
   { color := "#2B5F75", strokeColor := "#1A3B32",
     fillGradientStart := "#2B5F75", fillGradientEnd := "#F4F1E8",
     yOffset := 11/20, amplitude := 120, frequency := 3/1000, speed := 1/20,
     opacity := 9/10, noise := 20 },
   { color := "#4A8F78", strokeColor := "#2B4F3F",
     fillGradientStart := "#4A8F78", fillGradientEnd := "#F4F1E8",
     yOffset := 3/4, amplitude := 100, frequency := 1/250, speed := 1/10,
     opacity := 19/20, noise := 15 },
   { color := "#A66E4E", strokeColor := "#5C3A28",
     fillGradientStart := "rgba(166, 110, 78, 0.4)", fillGradientEnd := "rgba(244, 241, 232, 0.1)",
     yOffset := 9/10, amplitude := 60, frequency := 3/2000, speed := 1/5,
     opacity := 4/5, noise := 5 }]

/-- The x sample set of both `drawMountain` loops:
`for (let x = 0; x <= width; x += 5)`, i.e. the multiples of 5 up to `width`
(the canvas width is a nonnegative integer). -/
def sampleXs (width : ℕ) : List ℕ :=
  (List.range (width / 5 + 1)).map (fun i => 5 * i)

/-- The baseline of a layer: `height * yOffset + breath`, with
`breath = Math.sin(time * 0.5) * 5`. -/
def mountainBaseY (sin : ℚ → ℚ) (height : ℚ) (L : MountainLayerConfig) (t : ℚ) : ℚ :=
  height * L.yOffset + sin (t * (1/2)) * 5

/-- The wave height `y1 + y2 + y3` as computed inside the fill-path loop
(lines 207-211), with `currentParallax = parallaxX * speed`. -/
def fillWaveY (sin cos : ℚ → ℚ) (L : MountainLayerConfig) (t px x : ℚ) : ℚ :=
  let cp := px * L.speed
  let y1 := sin ((x + cp) * L.frequency + t * (1/10)) * L.amplitude
  let y2 := sin ((x + cp) * (L.frequency * (5/2)) + t * (1/5)) * (L.amplitude * (3/10))
  let y3 := cos ((x - cp) * (L.frequency * 5)) * L.noise
  y1 + y2 + y3

/-- The wave height `y1 + y2 + y3` as recomputed inside the stroke-path loop
(lines 232-234). -/
def strokeWaveY (sin cos : ℚ → ℚ) (L : MountainLayerConfig) (t px x : ℚ) : ℚ :=
  let cp := px * L.speed
  let y1 := sin ((x + cp) * L.frequency + t * (1/10)) * L.amplitude
  let y2 := sin ((x + cp) * (L.frequency * (5/2)) + t * (1/5)) * (L.amplitude * (3/10))
  let y3 := cos ((x - cp) * (L.frequency * 5)) * L.noise
  y1 + y2 + y3

/-- The top edge of the fill path: the `lineTo(x, baseY - (y1+y2+y3))` samples
of the first loop (the full fill path additionally starts at `(0, height)` and
closes via `(width, height)`; those two corner points are the flat bottom, not
part of the top edge). -/
def fillTopEdge (sin cos : ℚ → ℚ) (width : ℕ) (height : ℚ) (L : MountainLayerConfig)
    (t px : ℚ) : List (ℚ × ℚ) :=
  (sampleXs width).map
    (fun x => ((x : ℚ), mountainBaseY sin height L t - fillWaveY sin cos L t px (x : ℚ)))

/-- The stroke path: the `moveTo`/`lineTo` samples of the second loop. -/
def strokePath (sin cos : ℚ → ℚ) (width : ℕ) (height : ℚ) (L : MountainLayerConfig)
    (t px : ℚ) : List (ℚ × ℚ) :=
  (sampleXs width).map
    (fun x => ((x : ℚ), mountainBaseY sin height L t - strokeWaveY sin cos L t px (x : ℚ)))

/-! ### The frame driver `animate`, lines 243-336

```
const canvas = canvasRef.current;
if (!canvas) return;                      // no reschedule on this path
const ctx = canvas.getContext('2d');
if (!ctx) return;                         // no reschedule on this path
frameCountRef.current++;
... mouse LERP, background, mountains, three pools ...
requestRef.current = requestAnimationFrame(animate);
```

The drawing calls are stateless with respect to the component state (they only
write pixels), so the embedded step carries the state mutations and reports
whether a next frame was scheduled (`requestAnimationFrame` reached). -/

/-- One `animate` tick: given surface availability (`canvas` non-null, 2D
context non-null), canvas dimensions, the timestamp `time` (milliseconds), and
the current state, returns the new state and whether the tick rescheduled
itself.  Both early returns precede every state mutation and the reschedule. -/
def animateStep (sin cos : ℚ → ℚ) (canvasOk ctxOk : Bool) (w h time : ℚ)
    (s : AppState) : AppState × Bool :=
  if !canvasOk then (s, false)
  else if !ctxOk then (s, false)
  else
    let t := time * (1/1000)
    ({ frameCount := s.frameCount + 1,
       mouse := { s.mouse with
                    x := s.mouse.x + (s.mouse.targetX - s.mouse.x) * (1/20),
                    y := s.mouse.y + (s.mouse.targetY - s.mouse.y) * (1/20) },
       goldDust := goldDustPoolStep sin cos t w h s.goldDust,
       ripples := ripplePoolStep s.ripples,
       particles := inkPoolStep s.particles }, true)

/-! ## Helper lemmas on pool iteration -/

/-- The state part of one brush-trail frame for a single particle. -/
lemma inkFrame_fst (p : Particle) :
    (inkFrame p).1 =
      if (inkUpdateParticle p).life ≤ 0 then none else some (inkUpdateParticle p) := by
  by_cases h : (inkUpdateParticle p).life ≤ 0 <;> simp [inkFrame, h]

/-- One brush-trail pool frame on a singleton pool. -/
lemma inkPoolStep_singleton (p : Particle) :
    inkPoolStep [p] =
      if (inkUpdateParticle p).life ≤ 0 then [] else [inkUpdateParticle p] := by
  by_cases h : (inkUpdateParticle p).life ≤ 0 <;>
    simp [inkPoolStep, inkPoolFrame, inkFrame_fst, h]

/-- The empty brush-trail pool is a fixed point of the frame step. -/
lemma inkPoolStep_nil : inkPoolStep [] = [] := rfl

/-- While the decremented life stays positive, `n` brush-trail frames on a
single particle decrement life by `n * 0.02` and scale size by `0.98 ^ n`. -/
lemma inkPoolStep_iterate_alive (n : ℕ) (p : Particle)
    (h : 0 < p.life - n * (1/50)) :
    inkPoolStep^[n] [p] =
      [{ p with life := p.life - n * (1/50), size := p.size * (49/50) ^ n }] := by
  induction n generalizing p with
  | zero => simp
  | succ n ih =>
    have hn : (0:ℚ) ≤ (n:ℚ) := Nat.cast_nonneg n
    push_cast at h
    have h1 : ¬ (inkUpdateParticle p).life ≤ 0 := by
      simp only [inkUpdateParticle, not_le]
      linarith
    rw [Function.iterate_succ_apply, inkPoolStep_singleton, if_neg h1,
      ih (inkUpdateParticle p) (by simp only [inkUpdateParticle]; linarith)]
    simp only [inkUpdateParticle, Particle.mk.injEq, List.cons.injEq, and_true, true_and,
      List.nil_eq]
    push_cast
    constructor <;> ring

/-- Once the accumulated decrement exhausts the life budget, `n` brush-trail
frames empty a singleton pool. -/
lemma inkPoolStep_iterate_dead (n : ℕ) (p : Particle) (hn : 0 < n)
    (h : p.life - n * (1/50) ≤ 0) :
    inkPoolStep^[n] [p] = [] := by
  induction n generalizing p with
  | zero => exact absurd hn (by omega)
  | succ n ih =>
    rw [Function.iterate_succ_apply, inkPoolStep_singleton]
    by_cases h1 : (inkUpdateParticle p).life ≤ 0
    · rw [if_pos h1]
      exact Function.iterate_fixed inkPoolStep_nil n
    · rw [if_neg h1]
      rcases Nat.eq_zero_or_pos n with rfl | hpos
      · exfalso
        simp only [inkUpdateParticle, not_le] at h1
        push_cast at h
        linarith
      · refine ih (inkUpdateParticle p) hpos ?_
        simp only [inkUpdateParticle]
        push_cast at h ⊢
        linarith

/-- The state part of one ripple frame for a single ripple. -/
lemma rippleFrame_fst (r : Ripple) :
    (rippleFrame r).1 =
      if (rippleUpdate r).opacity ≤ 0 then none else some (rippleUpdate r) := by
  by_cases h : (rippleUpdate r).opacity ≤ 0 <;> simp [rippleFrame, h]

/-- One ripple pool frame on a singleton pool. -/
lemma ripplePoolStep_singleton (r : Ripple) :
    ripplePoolStep [r] =
      if (rippleUpdate r).opacity ≤ 0 then [] else [rippleUpdate r] := by
  by_cases h : (rippleUpdate r).opacity ≤ 0 <;>
    simp [ripplePoolStep, ripplePoolFrame, rippleFrame_fst, h]

/-- The empty ripple pool is a fixed point of the frame step. -/
lemma ripplePoolStep_nil : ripplePoolStep [] = [] := rfl

/-- `n` per-ripple updates add `n * 1.5` to the radius and subtract
`n * 0.01` from the opacity. -/
lemma rippleUpdate_iterate (n : ℕ) (r : Ripple) :
    rippleUpdate^[n] r =
      { r with radius := r.radius + n * (3/2), opacity := r.opacity - n * (1/100) } := by
  induction n generalizing r with
  | zero => simp
  | succ n ih =>
    rw [Function.iterate_succ_apply, ih]
    simp only [rippleUpdate, Ripple.mk.injEq, and_true, true_and]
    push_cast
    constructor <;> ring

/-- Once the accumulated decrement exhausts the opacity budget, `n` ripple
pool frames empty a singleton pool. -/
lemma ripplePoolStep_iterate_dead (n : ℕ) (r : Ripple) (hn : 0 < n)
    (h : r.opacity - n * (1/100) ≤ 0) :
    ripplePoolStep^[n] [r] = [] := by
  induction n generalizing r with
  | zero => exact absurd hn (by omega)
  | succ n ih =>
    rw [Function.iterate_succ_apply, ripplePoolStep_singleton]
    by_cases h1 : (rippleUpdate r).opacity ≤ 0
    · rw [if_pos h1]
      exact Function.iterate_fixed ripplePoolStep_nil n
    · rw [if_neg h1]
      rcases Nat.eq_zero_or_pos n with rfl | hpos
      · exfalso
        simp only [rippleUpdate, not_le] at h1
        push_cast at h
        linarith
      · refine ih (rippleUpdate r) hpos ?_
        simp only [rippleUpdate]
        push_cast at h ⊢
        linarith

/-! ## Claims -/

/-- C1, counterexample.  The brush-trail update loop (lines 316-330) never
reads or writes `p.x`, `p.y`, `p.vx`, `p.vy`: for the concrete particle at
`(0,0)` with velocity `(1,1)`, one per-frame update leaves the position at
`(0,0)` instead of advancing it to `(1,1)` as the claim's linear integration
requires. -/
theorem C1_counterexample :
    (inkUpdateParticle ⟨0, 0, 1, 1, 4, 1, 1, "#111"⟩).x = 0 ∧
    (inkUpdateParticle ⟨0, 0, 1, 1, 4, 1, 1, "#111"⟩).y = 0 ∧
    ¬ ((inkUpdateParticle ⟨0, 0, 1, 1, 4, 1, 1, "#111"⟩).x = 0 + 1 ∧
       (inkUpdateParticle ⟨0, 0, 1, 1, 4, 1, 1, "#111"⟩).y = 0 + 1) := by
  refine ⟨rfl, rfl, ?_⟩
  intro hc
  have := hc.1
  norm_num [inkUpdateParticle] at this

/-- C1, amended.  One per-frame brush-trail update decreases `life` by the
fixed decrement 0.02 and multiplies `size` by the constant 0.98, and leaves
position and velocity (and the remaining fields) unchanged: the per-spawn
velocity `(vx, vy)` is never applied. -/
theorem C1_ink_update (p : Particle) :
    (inkUpdateParticle p).life = p.life - 1/50 ∧
    (inkUpdateParticle p).size = p.size * (49/50) ∧
    (inkUpdateParticle p).x = p.x ∧
    (inkUpdateParticle p).y = p.y ∧
    (inkUpdateParticle p).vx = p.vx ∧
    (inkUpdateParticle p).vy = p.vy ∧
    (inkUpdateParticle p).maxLife = p.maxLife ∧
    (inkUpdateParticle p).color = p.color :=
  ⟨rfl, rfl, rfl, rfl, rfl, rfl, rfl, rfl⟩

/-- C2, counterexample.  The throttle reads the animation-frame counter
(`frameCountRef.current % 2 === 0`), which is incremented once per `animate`
tick, not per move event: starting from the initial state (frame counter 0,
empty pool), two consecutive pointer-move events with no frame in between
both spawn, putting 2 particles in the pool. -/
theorem C2_counterexample :
    ((handleMouseMove
        (handleMouseMove ⟨0, ⟨0, 0, 0, 0⟩, [], [], []⟩ 10 10 800 600 0 0 0 0)
        11 11 800 600 0 0 0 0).particles).length = 2 := by
  simp [handleMouseMove, inkSpawn]

/-- C2, amended.  A pointer-move event spawns exactly one ink particle when
the current animation-frame counter is even and none when it is odd (and the
event never changes the frame counter itself): the throttle halves the spawn
rate per *frame* parity, so any number of move events arriving within one
even frame all spawn. -/
theorem C2_throttle (s : AppState) (clientX clientY iw ih r1 r2 r3 r4 : ℚ) :
    (handleMouseMove s clientX clientY iw ih r1 r2 r3 r4).particles.length
      = s.particles.length + (if s.frameCount % 2 = 0 then 1 else 0) ∧
    (handleMouseMove s clientX clientY iw ih r1 r2 r3 r4).frameCount = s.frameCount := by
  unfold handleMouseMove
  by_cases h : s.frameCount % 2 = 0 <;> simp [h]

/-- C3, counterexample.  Both early returns of `animate` (`!canvas`, `!ctx`,
lines 244-247) precede the `requestAnimationFrame(animate)` call at line 335,
so a skipped tick schedules no further tick: at the initial state with the
surface unavailable, the tick reports no reschedule, refuting the claim's
"a further tick is still scheduled after the skip". -/
theorem C3_counterexample :
    (animateStep id id false true 800 600 0 ⟨0, ⟨0, 0, 0, 0⟩, [], [], []⟩).2 = false ∧
    (animateStep id id true false 800 600 0 ⟨0, ⟨0, 0, 0, 0⟩, [], [], []⟩).2 = false :=
  ⟨rfl, rfl⟩

/-- C3, amended.  When the canvas or its 2D context is unavailable, the tick
is a pure no-op: no pool, pointer, or counter state is mutated and no error is
raised (the embedded step is total) — but no further tick is scheduled from
the skip path; only a completed tick reschedules.  Stated for every state and
every input. -/
theorem C3_skip (sin cos : ℚ → ℚ) (w h time : ℚ) (s : AppState) :
    (∀ ctxOk : Bool, animateStep sin cos false ctxOk w h time s = (s, false)) ∧
    animateStep sin cos true false w h time s = (s, false) ∧
    (animateStep sin cos true true w h time s).2 = true :=
  ⟨fun _ => rfl, rfl, rfl⟩

/-- C4.  A clicked ripple spawns with radius 0; each per-frame update adds
1.5 to the radius and subtracts 0.01 from the opacity; after 14 updates the
radius is 21 > 20, so the 14th frame draws the secondary inner ring at
`radius - 15 = 6` with half the outer ring's alpha (outer: radius 21, alpha
0.46; inner: radius 6, alpha 0.23); and a ripple is removed by a frame
exactly when its updated opacity is ≤ 0. -/
theorem C4_ripple_lifecycle (clientX clientY r1 r2 : ℚ) :
    (rippleSpawn clientX clientY r1 r2).radius = 0 ∧
    (∀ r : Ripple, (rippleUpdate r).radius = r.radius + 3/2 ∧
                   (rippleUpdate r).opacity = r.opacity - 1/100) ∧
    (rippleUpdate^[14] (rippleSpawn clientX clientY r1 r2)).radius = 21 ∧
    (20 : ℚ) < (rippleUpdate^[14] (rippleSpawn clientX clientY r1 r2)).radius ∧
    (rippleFrame (rippleUpdate^[13] (rippleSpawn clientX clientY r1 r2))).2 =
      [{ x := clientX, y := clientY, radius := 21, lineWidth := 2 + (1 - 23/50) * 10,
         alpha := 23/50, color := (rippleSpawn clientX clientY r1 r2).color },
       { x := clientX, y := clientY, radius := 21 - 15, lineWidth := 1,
         alpha := (23/50) * (1/2), color := (rippleSpawn clientX clientY r1 r2).color }] ∧
    (∀ r : Ripple, (rippleFrame r).1 = none ↔ (rippleUpdate r).opacity ≤ 0) := by
  refine ⟨rfl, fun r => ⟨rfl, rfl⟩, ?_, ?_, ?_, fun r => ?_⟩
  · rw [rippleUpdate_iterate]
    norm_num [rippleSpawn]
  · rw [rippleUpdate_iterate]
    norm_num [rippleSpawn]
  · rw [rippleUpdate_iterate]
    norm_num [rippleSpawn, rippleFrame, rippleUpdate]
  · rw [rippleFrame_fst]
    by_cases h : (rippleUpdate r).opacity ≤ 0 <;> simp [h]

/-- C5.  An ink particle spawned with `life = 1` and `size = 4` survives 10
brush-trail frames and comes out with `life = 0.8` and
`size = 4 * 0.98 ^ 10` exactly (the pool after 10 frames is precisely that
one particle, so it is still present: its life has not reached ≤ 0). -/
theorem C5_scenario (p : Particle) (hlife : p.life = 1) (hsize : p.size = 4) :
    inkPoolStep^[10] [p] = [{ p with life := 4/5, size := 4 * (49/50) ^ 10 }] := by
  have h : 0 < p.life - (10 : ℕ) * (1/50 : ℚ) := by
    rw [hlife]; norm_num
  rw [inkPoolStep_iterate_alive 10 p h, hlife, hsize]
  norm_num

/-- C5, witness: the scenario evaluated at a concrete spawned particle. -/
theorem C5_witness :
    inkPoolStep^[10] [(⟨3, 4, 0, 0, 4, 1, 1, "#111"⟩ : Particle)] =
      [(⟨3, 4, 0, 0, 4 * (49/50) ^ 10, 4/5, 1, "#111"⟩ : Particle)] :=
  C5_scenario ⟨3, 4, 0, 0, 4, 1, 1, "#111"⟩ rfl rfl

/-- C6.  The gold-dust pool holds exactly 40 particles at initialization, the
per-frame gold-dust update is a `forEach` (a map: length preserved, nothing
added, removed or respawned), and one whole `animate` tick never changes the
gold-dust count — so the count is exactly 40 after every frame. -/
theorem C6_population (rnd : ℕ → ℚ) (iw ih : ℚ) :
    (goldDustInit rnd iw ih).length = 40 ∧
    (∀ (sin cos : ℚ → ℚ) (t w h : ℚ) (ps : List Particle),
      (goldDustPoolStep sin cos t w h ps).length = ps.length) ∧
    (∀ (sin cos : ℚ → ℚ) (canvasOk ctxOk : Bool) (w h time : ℚ) (s : AppState),
      ((animateStep sin cos canvasOk ctxOk w h time s).1).goldDust.length
        = s.goldDust.length) := by
  refine ⟨by simp [goldDustInit], fun sin cos t w h ps => by simp [goldDustPoolStep], ?_⟩
  intro sin cos canvasOk ctxOk w h time s
  cases canvasOk <;> cases ctxOk <;> simp [animateStep, goldDustPoolStep]

/-- C7.  After the drift step of a gold-dust frame: an x beyond `width` is
reset to exactly 0, an x below 0 is reset to exactly `width`, an in-range x
is kept as is (no clamp, no bounce), analogously for y against `height`; and
the pool update removes nothing (length preserved).  The canvas dimensions
are nonnegative. -/
theorem C7_wraparound (sin cos : ℚ → ℚ) (t w h : ℚ) (hw : 0 ≤ w) (hh : 0 ≤ h)
    (p : Particle) :
    ((driftX sin t p > w → (goldDustUpdateParticle sin cos t w h p).x = 0) ∧
     (driftX sin t p < 0 → (goldDustUpdateParticle sin cos t w h p).x = w) ∧
     (0 ≤ driftX sin t p → driftX sin t p ≤ w →
        (goldDustUpdateParticle sin cos t w h p).x = driftX sin t p)) ∧
    ((driftY sin cos t p > h → (goldDustUpdateParticle sin cos t w h p).y = 0) ∧
     (driftY sin cos t p < 0 → (goldDustUpdateParticle sin cos t w h p).y = h) ∧
     (0 ≤ driftY sin cos t p → driftY sin cos t p ≤ h →
        (goldDustUpdateParticle sin cos t w h p).y = driftY sin cos t p)) ∧
    (∀ ps : List Particle, (goldDustPoolStep sin cos t w h ps).length = ps.length) := by
  refine ⟨⟨?_, ?_, ?_⟩, ⟨?_, ?_, ?_⟩, fun ps => by simp [goldDustPoolStep]⟩ <;>
    (intros
     simp only [goldDustUpdateParticle]
     split_ifs <;> first | rfl | linarith)

/-- C7, witness: with `sin` constantly 1 on an 800×600 canvas, the particle
at `x = 800` drifts to `800.5 > 800` and is wrapped to exactly 0. -/
theorem C7_witness :
    (0 : ℚ) ≤ 800 ∧ (0 : ℚ) ≤ 600 ∧
    (goldDustUpdateParticle (fun _ => 1) (fun _ => 1) 0 800 600
        ⟨800, 10, 0, 0, 1, 1, 1, "#D4AF37"⟩).x = 0 := by
  refine ⟨by norm_num, by norm_num, ?_⟩
  have h := C7_wraparound (fun _ => 1) (fun _ => 1) 0 800 600 (by norm_num) (by norm_num)
      ⟨800, 10, 0, 0, 1, 1, 1, "#D4AF37"⟩
  refine h.1.1 ?_
  norm_num [driftX]

/-- C8.  For the same `(width, height, layer, time, parallaxX)` inputs, the
stroke path equals the fill path's top edge pointwise (same x samples, same
heights `baseY - (y1 + y2 + y3)`), and the shared x-sample set is exactly the
multiples of 5 from 0 up to `width`.  Both paths are pure functions of their
inputs, so two calls with identical inputs trivially produce identical
paths. -/
theorem C8_stroke_fill (sin cos : ℚ → ℚ) (width : ℕ) (height : ℚ)
    (L : MountainLayerConfig) (t px : ℚ) :
    strokePath sin cos width height L t px = fillTopEdge sin cos width height L t px ∧
    (∀ n : ℕ, n ∈ sampleXs width ↔ (∃ i : ℕ, n = 5 * i) ∧ n ≤ width) := by
  constructor
  · rfl
  · intro n
    simp only [sampleXs, List.mem_map, List.mem_range]
    constructor
    · rintro ⟨i, hi, rfl⟩
      exact ⟨⟨i, rfl⟩, by omega⟩
    · rintro ⟨⟨i, rfl⟩, hn⟩
      exact ⟨i, by omega, rfl⟩

/-- C9.  Decay empties singleton pools in finitely many frames: an ink
particle spawned with life 1 is gone after 50 brush-trail frames
(1 - 50·0.02 = 0 ≤ 0) and a ripple spawned with opacity 0.6 is gone after 60
ripple frames (0.6 - 60·0.01 = 0 ≤ 0). -/
theorem C9_decay_bounds (p : Particle) (r : Ripple)
    (hp : p.life = 1) (hr : r.opacity = 3/5) :
    inkPoolStep^[50] [p] = [] ∧ ripplePoolStep^[60] [r] = [] := by
  constructor
  · refine inkPoolStep_iterate_dead 50 p (by norm_num) ?_
    rw [hp]; norm_num
  · refine ripplePoolStep_iterate_dead 60 r (by norm_num) ?_
    rw [hr]; norm_num

/-- C9, witness: the bounds evaluated at concrete spawned entities. -/
theorem C9_witness :
    inkPoolStep^[50] [(⟨0, 0, 0, 0, 4, 1, 1, "#111"⟩ : Particle)] = [] ∧
    ripplePoolStep^[60] [(⟨0, 0, 0, 120, 3/5, "#2B5F75"⟩ : Ripple)] = [] :=
  C9_decay_bounds ⟨0, 0, 0, 0, 4, 1, 1, "#111"⟩ ⟨0, 0, 0, 120, 3/5, "#2B5F75"⟩ rfl rfl

/-- C10.  Ripple behaviour is independent of `maxRadius`: changing only
`maxRadius` commutes with the per-frame update (hence with any number of
updates: identical radius and opacity trajectories), yields the identical
drawn rings, and the same removal decision; and a spawned ripple's initial
opacity is the fixed constant 0.6 regardless of the randomized `maxRadius`. -/
theorem C10_maxRadius_independent (r : Ripple) (m : ℚ) :
    rippleUpdate { r with maxRadius := m } = { rippleUpdate r with maxRadius := m } ∧
    (∀ n : ℕ, rippleUpdate^[n] { r with maxRadius := m }
        = { rippleUpdate^[n] r with maxRadius := m }) ∧
    (rippleFrame { r with maxRadius := m }).2 = (rippleFrame r).2 ∧
    ((rippleFrame { r with maxRadius := m }).1 = none ↔ (rippleFrame r).1 = none) ∧
    (∀ clientX clientY a b : ℚ, (rippleSpawn clientX clientY a b).opacity = 3/5) := by
  refine ⟨rfl, fun n => ?_, ?_, ?_, fun _ _ _ _ => rfl⟩
  · rw [rippleUpdate_iterate, rippleUpdate_iterate]
  · simp only [rippleFrame, rippleUpdate]
    split_ifs <;> rfl
  · simp only [rippleFrame, rippleUpdate]
    split_ifs <;> simp
